import Mathlib

/-!
# Verification of the CSI-to-ICC two-stage code-matching engine

A shallow embedding, in Lean 4, of the core matching logic of the
`csi-to-icc` repository:

* `backend/app/keyword_matcher.py` — the `KeywordMatcher` class
  (`_create_searchable_text`, `_create_csi_query`, `find_matches`,
  `_find_matched_keywords`, `_score_to_confidence`) and the module-level
  `create_keyword_mappings` function;
* `backend/app/crud.py` — the read-side helpers the search endpoint uses
  (`get_csi_code`, `get_icc_sections_for_csi_code`, `search_csi_to_icc`);
* `backend/app/routers/codes.py` — the `search_codes` endpoint
  (the search orchestrator).

Modelling conventions:

* Python floats carrying similarity scores are modelled as `ℚ`.
* SQLAlchemy rows are records; the database is a record of lists of rows;
  `db.query(...).filter(...).first()` becomes `(List.filter ...).head?`.
* Python truthiness tests on fields (`if section.title:`) are modelled
  exactly: an empty string and the integer `0` count as absent.
* `numpy.argsort` (ascending) composed with `[::-1]` is modelled as a
  stable ascending sort of the index list followed by `List.reverse`;
  `sorted(..., key=len, reverse=True)` is modelled as a stable sort by the
  non-strict "longer-or-equal" relation.  `List.insertionSort` is used as
  the stable sort: a stable sort's output is uniquely determined by the
  input and the (total, transitive) comparison, so any stable sort is an
  equivalent model.
* Exceptions (`ValueError` from `KeywordMatcher.initialize`, runtime
  vectorization failures, `HTTPException`) are modelled with `Except`.
* The TF-IDF vectorization and cosine similarity of
  scikit-learn/`numpy` are numeric library calls outside the repository;
  the pipeline is modelled as parametric in the resulting similarity row
  (one rational score per corpus member), possibly failing, which is all
  the ranking, thresholding and orchestration logic observes.
-/

namespace CsiToIcc

/-! ## Data model (backend/app/models.py) -/

/-- Row of `icc_documents` (`models.ICCDocument`): `state` is nullable
(`None` for model codes). -/
structure ICCDocument where
  id : Nat
  code : String
  year : Int
  title : String
  state : Option String
deriving DecidableEq, Repr

/-- Row of `icc_sections` (`models.ICCSection`): `chapter` and
`description` are nullable. -/
structure ICCSection where
  id : Nat
  document_id : Nat
  section_number : String
  title : String
  chapter : Option Int
  description : Option String
deriving DecidableEq, Repr

/-- Row of `csi_codes` (`models.CSICode`): `description` is nullable. -/
structure CSICode where
  id : Nat
  code : String
  division : Int
  title : String
  description : Option String
deriving DecidableEq, Repr

/-- Row of `csi_icc_mappings` (`models.CSIICCMapping`).  The surrogate id
and timestamp play no role in the verified logic and are omitted; the
identifying pair is (`csi_code_id`, `icc_section_id`). -/
structure Mapping where
  csi_code_id : Nat
  icc_section_id : Nat
  relevance : String
  notes : String
deriving DecidableEq, Repr

/-- The relational store, as the lists of rows the verified code reads
and writes. -/
structure DB where
  csi_codes : List CSICode
  icc_documents : List ICCDocument
  icc_sections : List ICCSection
  mappings : List Mapping
deriving DecidableEq, Repr

/-! ## Corpus Builder (`KeywordMatcher._create_searchable_text`,
`KeywordMatcher._create_csi_query`) -/

/-- Python truthiness of an optional string field: `None` and `""` are
falsy. -/
def optStrParts (s : Option String) : List String :=
  match s with
  | some v => if v != "" then [v] else []
  | none => []

/-- `KeywordMatcher._create_searchable_text`: appends, in source order,
the section number, the title twice, the description, and then the
chapter phrase, joining with single spaces.  Fields failing Python's
truthiness test are skipped. -/
def createSearchableText (s : ICCSection) : String :=
  String.intercalate " " (
    (if s.section_number != "" then [s.section_number] else []) ++
    (if s.title != "" then [s.title, s.title] else []) ++
    optStrParts s.description ++
    (match s.chapter with
     | some c => if c != 0 then ["chapter " ++ toString c] else []
     | none => []))

/-- The searchable-text builder as the claim words it (section number,
title twice, the literal phrase "chapter N", then the description) —
written from the spec, to be compared against `createSearchableText`. -/
def claimedSearchableText (s : ICCSection) : String :=
  String.intercalate " " (
    (if s.section_number != "" then [s.section_number] else []) ++
    (if s.title != "" then [s.title, s.title] else []) ++
    (match s.chapter with
     | some c => if c != 0 then ["chapter " ++ toString c] else []
     | none => []) ++
    optStrParts s.description)

/-- The amended construction rule in spec style: optional fields in the
order section number, title, title, description, chapter phrase; absent
fields dropped, the rest space-joined. -/
def amendedSearchableText (s : ICCSection) : String :=
  String.intercalate " " (List.filterMap id
    [ (if s.section_number = "" then none else some s.section_number),
      (if s.title = "" then none else some s.title),
      (if s.title = "" then none else some s.title),
      s.description.bind (fun d => if d = "" then none else some d),
      s.chapter.bind (fun c => if c = 0 then none else some ("chapter " ++ toString c)) ])

/-- `KeywordMatcher._create_csi_query`: CSI code string once, title three
times, then description, space-joined, skipping falsy fields. -/
def createCsiQuery (c : CSICode) : String :=
  String.intercalate " " (
    (if c.code != "" then [c.code] else []) ++
    (if c.title != "" then [c.title, c.title, c.title] else []) ++
    optStrParts c.description)

/-! ## Confidence Classifier (`KeywordMatcher._score_to_confidence`) -/

/-- `KeywordMatcher._score_to_confidence`: fixed half-open thresholds.
The float literals `0.5`, `0.3`, `0.15` are the exact rationals
`mkRat 1 2`, `mkRat 3 10`, `mkRat 3 20` (spelled with `mkRat` so that
concrete runs reduce in the kernel). -/
def scoreToConfidence (score : ℚ) : String :=
  if score ≥ mkRat 1 2 then "high"
  else if score ≥ mkRat 3 10 then "medium"
  else if score ≥ mkRat 3 20 then "low"
  else "very_low"

/-! ## Match Explainer (`KeywordMatcher._find_matched_keywords`) -/

/-- The explainer's fixed stop-word set (`stop_words` local in
`_find_matched_keywords`). -/
def explainerStopWords : List String :=
  ["the", "a", "an", "and", "or", "but", "in", "on", "at", "to", "for",
   "of", "with", "by"]

/-- `text.lower().split()`: lowercase, split on whitespace runs,
dropping empty fragments. -/
def splitWords (s : String) : List String :=
  (s.toLower.split Char.isWhitespace).filter (fun w => w != "")

/-- `KeywordMatcher._find_matched_keywords`: build the two word sets
(sets modelled as deduplicated lists), drop stop words, intersect, sort
by descending word length (stable), keep the first 5. -/
def findMatchedKeywords (query text : String) : List String :=
  let queryWords := ((splitWords query).dedup).filter
    (fun w => !explainerStopWords.contains w)
  let textWords := ((splitWords text).dedup).filter
    (fun w => !explainerStopWords.contains w)
  let matched := queryWords.filter (fun w => textWords.contains w)
  (matched.insertionSort (fun a b => b.length ≤ a.length)).take 5

/-! ## Similarity Ranker (`KeywordMatcher.find_matches`) -/

/-- One entry of the result list of `find_matches` (a Python dict with
keys `section`, `score`, `matched_keywords`, `confidence`). -/
structure MatchResult where
  sec : ICCSection
  score : ℚ
  matched_keywords : List String
  confidence : String
deriving DecidableEq, Repr

/-- The ascending comparison used on corpus indices: index `i` sorts
before `j` when `similarities[i] ≤ similarities[j]`. -/
def simLE (similarities : List ℚ) (i j : Nat) : Prop :=
  similarities.getD i 0 ≤ similarities.getD j 0

instance (similarities : List ℚ) : DecidableRel (simLE similarities) :=
  fun i j =>
    inferInstanceAs (Decidable (similarities.getD i 0 ≤ similarities.getD j 0))

/-- `np.argsort(similarities)[::-1][:top_n]` (line 118 of
`keyword_matcher.py`): stable ascending argsort of the index list,
reversed, truncated to `top_n`. -/
def topIndices (similarities : List ℚ) (top_n : Nat) : List Nat :=
  ((((List.range similarities.length)).insertionSort
      (simLE similarities)).reverse).take top_n

/-- The body of the `for idx in top_indices` loop of `find_matches`:
skip an index whose score is below `min_score`, otherwise build the
result dict for the corpus member at that index. -/
def matchAt (sections : List ICCSection) (similarities : List ℚ)
    (queryText : String) (min_score : ℚ) (idx : Nat) : Option MatchResult :=
  let score := similarities.getD idx 0
  if score < min_score then none
  else (sections.get? idx).map (fun s =>
    { sec := s
      score := score
      matched_keywords :=
        findMatchedKeywords queryText (createSearchableText s)
      confidence := scoreToConfidence score })

/-- `KeywordMatcher.find_matches`, parametric in the similarity row
produced by TF-IDF + cosine similarity (one score per corpus member):
rank indices descending by score, drop those below `min_score`, build
the result entries in rank order. -/
def findMatches (sections : List ICCSection) (similarities : List ℚ)
    (queryText : String) (top_n : Nat) (min_score : ℚ) : List MatchResult :=
  (topIndices similarities top_n).filterMap
    (matchAt sections similarities queryText min_score)

/-! ## Curated lookup (backend/app/crud.py) -/

/-- `crud.get_csi_code`: `db.query(CSICode).filter(code == ...).first()`. -/
def get_csi_code (db : DB) (code : String) : Option CSICode :=
  (db.csi_codes.filter (fun c => c.code == code)).head?

/-- Lookup of a section's parent document row (the SQL join
`ICCSection.document_id == ICCDocument.id`). -/
def getDocument (db : DB) (document_id : Nat) : Option ICCDocument :=
  (db.icc_documents.filter (fun d => d.id == document_id)).head?

/-- The join-and-filter predicate of `crud.get_icc_sections_for_csi_code`:
the section is mapped to the CSI code and its parent document passes the
optional `state` / `year` / `icc_document` filters.  The inner joins
require both the mapping row and the document row to exist. -/
def sectionInCurated (db : DB) (csi : CSICode) (state : Option String)
    (year : Option Int) (icc_document : Option String) (s : ICCSection) : Bool :=
  (db.mappings.any (fun m =>
      m.csi_code_id == csi.id && m.icc_section_id == s.id)) &&
  (match getDocument db s.document_id with
   | none => false
   | some d =>
     (match state with | none => true | some v => d.state == some v) &&
     (match year with | none => true | some v => d.year == v) &&
     (match icc_document with | none => true | some v => d.code == v))

/-- `crud.get_icc_sections_for_csi_code` for an already-resolved CSI
row. -/
def curatedSections (db : DB) (csi : CSICode) (state : Option String)
    (year : Option Int) (icc_document : Option String) : List ICCSection :=
  db.icc_sections.filter (sectionInCurated db csi state year icc_document)

/-- `crud.search_csi_to_icc`: `None` when the CSI code string is
unknown, otherwise the CSI row together with its curated sections. -/
def search_csi_to_icc (db : DB) (csi_code : String) (state : Option String)
    (year : Option Int) (icc_document : Option String) :
    Option (CSICode × List ICCSection) :=
  match get_csi_code db csi_code with
  | none => none
  | some csi => some (csi, curatedSections db csi state year icc_document)

/-! ## Matcher initialization (`KeywordMatcher.initialize`) -/

/-- The corpus loaded by `KeywordMatcher.initialize`:
`db.query(ICCSection).join(ICCDocument)` with an optional filter on the
document family code.  The inner join drops sections with no document
row. -/
def matcherSections (db : DB) (icc_document_code : Option String) :
    List ICCSection :=
  db.icc_sections.filter (fun s =>
    match getDocument db s.document_id with
    | none => false
    | some d =>
      match icc_document_code with
      | none => true
      | some v => d.code == v)

/-- `KeywordMatcher.initialize` up to the corpus check: raises
`ValueError("No ICC sections found in database")` when the loaded
section list is empty. -/
def matcherInitialize (db : DB) (icc_document_code : Option String) :
    Except String (List ICCSection) :=
  let sections := matcherSections db icc_document_code
  if sections.isEmpty then .error "No ICC sections found in database"
  else .ok sections

/-- Abstraction of the numeric vectorize-and-score pipeline
(`TfidfVectorizer.fit_transform` / `transform` / `cosine_similarity`):
from the corpus sections and the query text, either a runtime failure or
one similarity score per corpus member. -/
def SimOracle : Type :=
  List ICCSection → String → Except String (List ℚ)

/-! ## Search Orchestrator (`search_codes` in
backend/app/routers/codes.py) -/

/-- Body of `schemas.SearchRequest` as consumed by `search_codes`. -/
structure SearchRequest where
  csi_code : String
  state : Option String
  year : Option Int
  icc_document : Option String
deriving DecidableEq, Repr

/-- The result envelope assembled by `search_codes`
(`schemas.SearchResult`): CSI row, section list, total, provenance
tag. -/
structure SearchResultEnv where
  csi_code : CSICode
  icc_sections : List ICCSection
  total_results : Nat
  source : String
deriving DecidableEq, Repr

/-- The body of the `try:` block on the fallback path of
`search_codes`: initialize the matcher (raises on an empty corpus),
run the numeric pipeline (may raise at runtime), rank with
`find_matches` at `top_n = 10`, `min_score = 0.1`. -/
def fallbackPipeline (sim : SimOracle) (db : DB) (req : SearchRequest)
    (csiObj : CSICode) : Except String (List MatchResult) := do
  let sections ← matcherInitialize db req.icc_document
  let sims ← sim sections (createCsiQuery csiObj)
  pure (findMatches sections sims (createCsiQuery csiObj) 10 (mkRat 1 10))

/-- The `search_codes` endpoint.  `Except.error` models the
`HTTPException(404)` for an unknown CSI code.  The returned `DB` is the
store after the call.  The in-memory loading of `section.document`
relationships performed on the fallback path touches no `Mapping` row
and is not modelled.  The `try/except` around the fallback is modelled
by the `match` on the `Except` value of the fallback pipeline. -/
def search_codes (sim : SimOracle) (db : DB) (req : SearchRequest) :
    Except String SearchResultEnv × DB :=
  match search_csi_to_icc db req.csi_code req.state req.year req.icc_document with
  | none => (.error "CSI code not found", db)
  | some (csi, curated) =>
    if curated.length = 0 then
      match get_csi_code db req.csi_code with
      | some csiObj =>
        match fallbackPipeline sim db req csiObj with
        | .ok ms =>
          let suggested := ms.map (fun m => m.sec)
          (.ok { csi_code := csi, icc_sections := suggested,
                 total_results := suggested.length,
                 source := "keyword_matching" }, db)
        | .error _ =>
          (.ok { csi_code := csi, icc_sections := curated,
                 total_results := curated.length,
                 source := "no_mappings" }, db)
      | none =>
        (.ok { csi_code := csi, icc_sections := curated,
               total_results := curated.length,
               source := "no_mappings" }, db)
    else
      (.ok { csi_code := csi, icc_sections := curated,
             total_results := curated.length,
             source := "manual_mappings" }, db)

/-! ## Mapping Synthesizer (`create_keyword_mappings`) -/

/-- The default `relevance_map` of `create_keyword_mappings`. -/
def default_relevance_map : List (String × String) :=
  [("high", "primary"), ("medium", "secondary"), ("low", "reference"),
   ("very_low", "reference")]

/-- `relevance_map.get(confidence, 'reference')`. -/
def relevanceFor (relevance_map : List (String × String))
    (confidence : String) : String :=
  (((relevance_map.filter (fun p => p.1 == confidence)).head?).map
    (fun p => p.2)).getD "reference"

/-- The duplicate check of `create_keyword_mappings`:
`db.query(CSIICCMapping).filter(csi_code_id == ..., icc_section_id == ...).first()`
is non-`None`.  With the session's default autoflush, the query also
sees rows added earlier in the same call, so it is evaluated against the
current (pending-inclusive) mapping list. -/
def hasPair (mappings : List Mapping) (csi_code_id icc_section_id : Nat) : Bool :=
  mappings.any (fun m =>
    m.csi_code_id == csi_code_id && m.icc_section_id == icc_section_id)

/-- The auto-generated `notes` text.  Python renders the score with the
`:.3f` float format; the numeric rendering is abstracted as `toString`
(no verified claim depends on the digits). -/
def mkNotes (score : ℚ) (keywords : List String) : String :=
  "Auto-generated via keyword matching (score: " ++ toString score ++
    ", keywords: " ++ String.intercalate ", " (keywords.take 3) ++ ")"

/-- One iteration of the `for match in matches` loop of
`create_keyword_mappings`: skip when the (CSI, section) pair already has
a mapping, otherwise append the new row and bump the counter. -/
def synthStep (csi : CSICode) (relevance_map : List (String × String))
    (acc : Nat × List Mapping) (m : MatchResult) : Nat × List Mapping :=
  let relevance := relevanceFor relevance_map m.confidence
  if hasPair acc.2 csi.id m.sec.id then acc
  else
    (acc.1 + 1,
     acc.2 ++ [{ csi_code_id := csi.id, icc_section_id := m.sec.id,
                 relevance := relevance,
                 notes := mkNotes m.score m.matched_keywords }])

/-- `create_keyword_mappings`: fold the loop over the matches starting
from the stored mapping rows; return the created count, the resulting
store, and whether `db.commit()` ran (the code commits exactly when
`created > 0`; when `created = 0` no row was ever added, so the
pending-inclusive list equals the stored one). -/
def create_keyword_mappings (db : DB) (csi : CSICode)
    (ms : List MatchResult) (relevance_map : List (String × String)) :
    Nat × DB × Bool :=
  let acc := ms.foldl (synthStep csi relevance_map) (0, db.mappings)
  (acc.1, { db with mappings := acc.2 }, decide (0 < acc.1))

/-! ## Claim C2 — searchable-text construction order -/

/-- A section with every field populated, exercising the full
construction rule. -/
def c2Section : ICCSection :=
  { id := 7, document_id := 1, section_number := "607.1",
    title := "Water Heaters", chapter := some 6,
    description := some "Hot water supply" }

/-- The round-trip section of the claim: title and description only. -/
def c2RoundTripSection : ICCSection :=
  { id := 8, document_id := 1, section_number := "",
    title := "Water Heaters", chapter := none,
    description := some "Requirements for water heater installation" }

/-- **C2, counterexample.**  On a section carrying both a chapter and a
description, the searchable text built by the code differs from the
claimed order (which puts "chapter N" before the description): the code
emits "607.1 Water Heaters Water Heaters Hot water supply chapter 6",
not "607.1 Water Heaters Water Heaters chapter 6 Hot water supply". -/
theorem C2_counterexample :
    createSearchableText c2Section ≠ claimedSearchableText c2Section ∧
    createSearchableText c2Section =
      "607.1 Water Heaters Water Heaters Hot water supply chapter 6" := by
  constructor
  · decide
  · rfl

/-- **C2, amended.**  The searchable text is the space-joined
concatenation, in this order, of: the section number (once, if
present), the title twice (if present), the free-text description (if
present), then the literal phrase "chapter N" (if a chapter number is
present); absent fields are omitted with no placeholder.  The claim's
round-trip example (title twice, then description, space-joined) holds
as stated. -/
theorem C2_searchable_text_amended :
    (∀ s : ICCSection, createSearchableText s = amendedSearchableText s) ∧
    createSearchableText c2RoundTripSection =
      "Water Heaters Water Heaters Requirements for water heater installation" := by
  constructor
  · intro s
    obtain ⟨i, di, sn, t, ch, d⟩ := s
    simp only [createSearchableText, amendedSearchableText, optStrParts, bne_iff_ne, ne_eq]
    cases d <;> cases ch <;>
      by_cases hsn : sn = "" <;> by_cases ht : t = "" <;>
        simp [hsn, ht] <;> split_ifs <;> simp_all
  · rfl

/-! ## Claim C5 — confidence classifier thresholds -/

/-- **C5.**  The confidence classifier is a pure total function of the
score with half-open thresholds: `s ≥ 0.5 = mkRat 1 2` yields `high`,
`0.3 ≤ s < 0.5` yields `medium`, `0.15 ≤ s < 0.3` yields `low`, and
`s < 0.15` yields `very_low`; in particular the claimed values at
`0.5`, `0.49999`, `0.3`, `0.15` and `0.0` all hold. -/
theorem C5_confidence_classifier :
    (∀ s : ℚ,
      (mkRat 1 2 ≤ s → scoreToConfidence s = "high") ∧
      (mkRat 3 10 ≤ s → s < mkRat 1 2 → scoreToConfidence s = "medium") ∧
      (mkRat 3 20 ≤ s → s < mkRat 3 10 → scoreToConfidence s = "low") ∧
      (s < mkRat 3 20 → scoreToConfidence s = "very_low")) ∧
    scoreToConfidence (mkRat 1 2) = "high" ∧
    scoreToConfidence (mkRat 49999 100000) = "medium" ∧
    scoreToConfidence (mkRat 3 10) = "medium" ∧
    scoreToConfidence (mkRat 3 20) = "low" ∧
    scoreToConfidence 0 = "very_low" := by
  refine ⟨fun s => ⟨fun h1 => ?_, fun h2 h2' => ?_, fun h3 h3' => ?_,
      fun h4 => ?_⟩, by decide, by decide, by decide, by decide, by decide⟩
  · unfold scoreToConfidence
    rw [if_pos h1]
  · unfold scoreToConfidence
    rw [if_neg (not_le.mpr h2'), if_pos h2]
  · unfold scoreToConfidence
    rw [if_neg (not_le.mpr (h3'.trans_le (by decide))),
      if_neg (not_le.mpr h3'), if_pos h3]
  · unfold scoreToConfidence
    rw [if_neg (not_le.mpr (h4.trans_le (by decide))),
      if_neg (not_le.mpr (h4.trans_le (by decide))), if_neg (not_le.mpr h4)]

/-- Witness for C5: concrete scores exercising each hypothesis of the
universally quantified part. -/
theorem C5_confidence_classifier_witness :
    scoreToConfidence (mkRat 3 5) = "high" ∧
    scoreToConfidence (mkRat 2 5) = "medium" ∧
    scoreToConfidence (mkRat 1 5) = "low" ∧
    scoreToConfidence (mkRat 1 20) = "very_low" :=
  ⟨(C5_confidence_classifier.1 (mkRat 3 5)).1 (by decide),
   (C5_confidence_classifier.1 (mkRat 2 5)).2.1 (by decide) (by decide),
   (C5_confidence_classifier.1 (mkRat 1 5)).2.2.1 (by decide) (by decide),
   (C5_confidence_classifier.1 (mkRat 1 20)).2.2.2 (by decide)⟩

/-! ## Claim C9 — match explainer contract -/

/-- The descending-length comparison used by the explainer's sort. -/
def lenGE (a b : String) : Prop := b.length ≤ a.length

instance : DecidableRel lenGE := fun a b =>
  inferInstanceAs (Decidable (b.length ≤ a.length))

instance : IsTotal String lenGE :=
  ⟨fun a b => Nat.le_total b.length a.length⟩

instance : IsTrans String lenGE :=
  ⟨fun _ _ _ h1 h2 => Nat.le_trans h2 h1⟩

/-- **C9.**  For every pair of query text and candidate text, the match
explainer returns at most 5 terms; each returned term occurs (after
lowercasing and whitespace splitting) in both texts, none belongs to
the explainer's fixed stop-word set, and the terms are sorted by
non-increasing term length. -/
theorem C9_match_explainer (query text : String) :
    (findMatchedKeywords query text).length ≤ 5 ∧
    (∀ w ∈ findMatchedKeywords query text,
      w ∈ splitWords query ∧ w ∈ splitWords text ∧ w ∉ explainerStopWords) ∧
    (findMatchedKeywords query text).Pairwise
      (fun a b => b.length ≤ a.length) := by
  refine ⟨List.length_take_le _ _, ?_, ?_⟩
  · intro w hw
    unfold findMatchedKeywords at hw
    have hw1 := List.mem_of_mem_take hw
    rw [List.mem_insertionSort] at hw1
    simp at hw1
    refine ⟨?_, ?_, ?_⟩ <;> tauto
  · unfold findMatchedKeywords
    have hs : (List.insertionSort lenGE
        (((splitWords query).dedup.filter
            (fun w => !explainerStopWords.contains w)).filter
          (fun w => ((splitWords text).dedup.filter
            (fun w => !explainerStopWords.contains w)).contains w))).Pairwise lenGE :=
      List.sorted_insertionSort lenGE _
    exact List.Pairwise.sublist (List.take_sublist _ _) hs

/-- Witness for C9: a concrete query/text pair with overlapping terms. -/
theorem C9_match_explainer_witness :
    (findMatchedKeywords "Plumbing Water Heaters for the kitchen"
        "Water heaters and plumbing requirements").length ≤ 5 ∧
    (∀ w ∈ findMatchedKeywords "Plumbing Water Heaters for the kitchen"
        "Water heaters and plumbing requirements",
      w ∈ splitWords "Plumbing Water Heaters for the kitchen" ∧
      w ∈ splitWords "Water heaters and plumbing requirements" ∧
      w ∉ explainerStopWords) ∧
    (findMatchedKeywords "Plumbing Water Heaters for the kitchen"
        "Water heaters and plumbing requirements").Pairwise
      (fun a b => b.length ≤ a.length) :=
  C9_match_explainer "Plumbing Water Heaters for the kitchen"
    "Water heaters and plumbing requirements"

/-! ## Claim C4 — ranker output contract -/

instance (similarities : List ℚ) : IsTotal Nat (simLE similarities) :=
  ⟨fun _ _ => le_total _ _⟩

instance (similarities : List ℚ) : IsTrans Nat (simLE similarities) :=
  ⟨fun _ _ _ h1 h2 => le_trans h1 h2⟩

/-- The ranked index list is pairwise non-increasing in score. -/
theorem topIndices_pairwise (similarities : List ℚ) (top_n : Nat) :
    (topIndices similarities top_n).Pairwise
      (fun i j => similarities.getD j 0 ≤ similarities.getD i 0) := by
  unfold topIndices
  refine List.Pairwise.sublist (List.take_sublist _ _) ?_
  rw [List.pairwise_reverse]
  exact List.sorted_insertionSort (simLE similarities) (List.range similarities.length)

/-- Every ranked index is a position into the similarity row. -/
theorem topIndices_mem {similarities : List ℚ} {top_n idx : Nat}
    (h : idx ∈ topIndices similarities top_n) : idx < similarities.length := by
  unfold topIndices at h
  have h' := List.mem_of_mem_take h
  rw [List.mem_reverse, List.mem_insertionSort, List.mem_range] at h'
  exact h'

/-- Characterization of a successful loop iteration of `find_matches`:
the score clears `min_score`, is read off the similarity row at the
index, and the section is the corpus member at that index. -/
theorem matchAt_some {sections : List ICCSection} {similarities : List ℚ}
    {qt : String} {min_score : ℚ} {idx : Nat} {r : MatchResult}
    (h : matchAt sections similarities qt min_score idx = some r) :
    min_score ≤ r.score ∧ r.score = similarities.getD idx 0 ∧
      sections.get? idx = some r.sec := by
  simp only [matchAt] at h
  split at h
  · exact absurd h (by simp)
  · rename_i hlt
    rw [Option.map_eq_some'] at h
    obtain ⟨s, hs, hr⟩ := h
    subst hr
    exact ⟨not_lt.mp hlt, rfl, hs⟩

/-- In-bounds `getD` is a member of the list. -/
theorem getD_mem_of_lt {l : List ℚ} {i : Nat} (h : i < l.length) :
    l.getD i 0 ∈ l := by
  rw [List.getD_eq_getElem?_getD, List.getElem?_eq_getElem h]
  exact List.getElem_mem h

/-- **C4.**  For every corpus, similarity row, `top_n` and `min_score`,
`find_matches` returns at most `top_n` results, every returned result
has score ≥ `min_score` (the bound is inclusive), the results are
sorted by non-increasing score, and when no score reaches `min_score`
the result is the empty list rather than an error (the function is
total). -/
theorem C4_ranker_contract (sections : List ICCSection) (similarities : List ℚ)
    (queryText : String) (top_n : Nat) (min_score : ℚ) :
    (findMatches sections similarities queryText top_n min_score).length ≤ top_n ∧
    (∀ r ∈ findMatches sections similarities queryText top_n min_score,
      min_score ≤ r.score) ∧
    (findMatches sections similarities queryText top_n min_score).Pairwise
      (fun a b => b.score ≤ a.score) ∧
    ((∀ s ∈ similarities, s < min_score) →
      findMatches sections similarities queryText top_n min_score = []) := by
  refine ⟨?_, ?_, ?_, ?_⟩
  · unfold findMatches topIndices
    exact le_trans (List.length_filterMap_le _ _) (List.length_take_le _ _)
  · intro r hr
    unfold findMatches at hr
    rw [List.mem_filterMap] at hr
    obtain ⟨idx, _, hsome⟩ := hr
    exact (matchAt_some hsome).1
  · unfold findMatches
    rw [List.pairwise_filterMap]
    refine (topIndices_pairwise similarities top_n).imp ?_
    intro i j hij r hr r' hr'
    have e1 := (matchAt_some (Option.mem_def.mp hr)).2.1
    have e2 := (matchAt_some (Option.mem_def.mp hr')).2.1
    rw [e1, e2]
    exact hij
  · intro hall
    unfold findMatches
    rw [List.filterMap_eq_nil_iff]
    intro idx hidx
    have hlt : similarities.getD idx 0 < min_score :=
      hall _ (getD_mem_of_lt (topIndices_mem hidx))
    simp only [matchAt]
    rw [if_pos hlt]

/-- Witness for C4: a one-section corpus; with the only score below the
threshold the result is empty, with it above the length bound holds. -/
theorem C4_ranker_contract_witness :
    findMatches [c2Section] [mkRat 1 20] "water" 10 (mkRat 1 10) = [] ∧
    (findMatches [c2Section] [mkRat 1 2] "water" 10 (mkRat 1 10)).length ≤ 10 :=
  ⟨(C4_ranker_contract [c2Section] [mkRat 1 20] "water" 10 (mkRat 1 10)).2.2.2
      (by decide),
   (C4_ranker_contract [c2Section] [mkRat 1 2] "water" 10 (mkRat 1 10)).1⟩

/-! ## Claim C3 — tie order among equal scores -/

/-- First corpus member for the tie example. -/
def c3SecA : ICCSection :=
  { id := 1, document_id := 1, section_number := "101.1", title := "Scope",
    chapter := none, description := none }

/-- Second corpus member for the tie example. -/
def c3SecB : ICCSection :=
  { id := 2, document_id := 1, section_number := "101.2", title := "Intent",
    chapter := none, description := none }

/-- **C3, counterexample.**  With a two-member corpus whose members
score equally, both appear in the output, but in reverse corpus order
(section id 2 before id 1): `np.argsort` ascending followed by `[::-1]`
reverses the relative order of ties, so the descending ranking is not
stable with respect to corpus position. -/
theorem C3_counterexample :
    ((findMatches [c3SecA, c3SecB] [mkRat 1 2, mkRat 1 2] "q" 10
        (mkRat 1 10)).map (fun r => r.sec.id)) = [2, 1] ∧
    ((findMatches [c3SecA, c3SecB] [mkRat 1 2, mkRat 1 2] "q" 10
        (mkRat 1 10)).map (fun r => r.score)) = [mkRat 1 2, mkRat 1 2] := by
  constructor
  · decide
  · decide

/-- `[i, j]` is a sublist of `range n` when `i < j < n`. -/
theorem pair_sublist_range {i j n : Nat} (hij : i < j) (hj : j < n) :
    [i, j].Sublist (List.range n) := by
  induction n with
  | zero => omega
  | succ n ih =>
    rw [List.range_succ]
    rcases Nat.lt_succ_iff_lt_or_eq.mp hj with h | h
    · exact (ih h).trans (List.sublist_append_left _ _)
    · subst h
      exact List.Sublist.append
        (List.singleton_sublist.mpr (List.mem_range.mpr hij))
        (List.Sublist.refl _)

/-- **C3, amended.**  Ties are broken by *reverse* corpus order: for
every similarity row and positions `i < j` with equal scores, position
`j` precedes position `i` in the ranked index order (shown before
truncation, i.e. with `top_n` the full corpus size); the descending
sort is anti-stable because the ascending stable argsort is reversed. -/
theorem C3_tie_order_amended (similarities : List ℚ) (i j : Nat)
    (hij : i < j) (hj : j < similarities.length)
    (heq : similarities.getD i 0 = similarities.getD j 0) :
    [j, i].Sublist (topIndices similarities similarities.length) := by
  unfold topIndices
  have hsub : [i, j].Sublist (List.range similarities.length) :=
    pair_sublist_range hij hj
  have hsorted : [i, j].Sublist
      ((List.range similarities.length).insertionSort (simLE similarities)) :=
    List.pair_sublist_insertionSort (le_of_eq heq) hsub
  rw [List.take_of_length_le (by
    rw [List.length_reverse, List.length_insertionSort, List.length_range])]
  simpa using hsorted.reverse

/-- Witness for C3's amended theorem: the two-member tie, where index 1
precedes index 0 in the ranked order. -/
theorem C3_tie_order_amended_witness :
    [1, 0].Sublist (topIndices [mkRat 1 2, mkRat 1 2] 2) :=
  C3_tie_order_amended [mkRat 1 2, mkRat 1 2] 0 1 (by decide) (by decide)
    (by decide)

/-! ## Claims C1, C7, C8 — orchestrator provenance, error handling,
frame -/

/-- A successful curated lookup pins down both the CSI row (it is the
one `get_csi_code` finds) and the section list. -/
theorem search_csi_to_icc_some {db : DB} {code : String} {st : Option String}
    {yr : Option Int} {docF : Option String} {csi : CSICode}
    {cur : List ICCSection}
    (h : search_csi_to_icc db code st yr docF = some (csi, cur)) :
    get_csi_code db code = some csi ∧ cur = curatedSections db csi st yr docF := by
  unfold search_csi_to_icc at h
  split at h
  · exact absurd h (by simp)
  · rename_i c hc
    simp only [Option.some_inj, Prod.mk.injEq] at h
    obtain ⟨h1, h2⟩ := h
    subst h1
    exact ⟨hc, h2.symm⟩

/-- Branch lemma: non-empty curated lookup yields the
`manual_mappings` tag with exactly the curated sections. -/
theorem search_codes_curated_branch (sim : SimOracle) (db : DB)
    (req : SearchRequest) {csi : CSICode} {curated : List ICCSection}
    (h : search_csi_to_icc db req.csi_code req.state req.year req.icc_document
      = some (csi, curated)) (hne : curated ≠ []) :
    search_codes sim db req = (.ok
      { csi_code := csi, icc_sections := curated,
        total_results := curated.length, source := "manual_mappings" }, db) := by
  unfold search_codes
  rw [h]
  dsimp only
  rw [if_neg (fun hh => hne (List.length_eq_zero.mp hh))]

/-- Branch lemma: empty curated lookup and a fallback pipeline that
completes without error yield the `keyword_matching` tag with the
suggested sections — even when the pipeline returned zero matches. -/
theorem search_codes_fallback_ok_branch (sim : SimOracle) (db : DB)
    (req : SearchRequest) {csi : CSICode} {ms : List MatchResult}
    (h : search_csi_to_icc db req.csi_code req.state req.year req.icc_document
      = some (csi, []))
    (hok : fallbackPipeline sim db req csi = .ok ms) :
    search_codes sim db req = (.ok
      { csi_code := csi, icc_sections := ms.map (fun m => m.sec),
        total_results := ms.length, source := "keyword_matching" }, db) := by
  obtain ⟨hget, -⟩ := search_csi_to_icc_some h
  unfold search_codes
  rw [h]
  dsimp only
  rw [List.length_nil, if_pos rfl, hget]
  dsimp only
  rw [hok]
  simp

/-- Branch lemma: empty curated lookup and a fallback pipeline that
raises yield the `no_mappings` tag with zero sections; the exception is
swallowed. -/
theorem search_codes_fallback_error_branch (sim : SimOracle) (db : DB)
    (req : SearchRequest) {csi : CSICode} {e : String}
    (h : search_csi_to_icc db req.csi_code req.state req.year req.icc_document
      = some (csi, []))
    (herr : fallbackPipeline sim db req csi = .error e) :
    search_codes sim db req = (.ok
      { csi_code := csi, icc_sections := [], total_results := 0,
        source := "no_mappings" }, db) := by
  obtain ⟨hget, -⟩ := search_csi_to_icc_some h
  unfold search_codes
  rw [h]
  dsimp only
  rw [List.length_nil, if_pos rfl, hget]
  dsimp only
  rw [herr]

/-- The CSI code, document, corpus and request of the provenance
counterexample. -/
def c1Csi : CSICode :=
  { id := 1, code := "22 40 00", division := 22,
    title := "Plumbing Fixtures", description := none }

/-- A model document row for the examples. -/
def c1Doc : ICCDocument :=
  { id := 1, code := "IPC", year := 2021,
    title := "International Plumbing Code", state := none }

/-- Store with one CSI code, one document, one section, no mappings. -/
def c1DB : DB :=
  { csi_codes := [c1Csi], icc_documents := [c1Doc],
    icc_sections := [c3SecA], mappings := [] }

/-- Search request for the example CSI code, no filters. -/
def c1Req : SearchRequest :=
  { csi_code := "22 40 00", state := none, year := none, icc_document := none }

/-- A similarity oracle that succeeds with all-zero scores (every
candidate below `min_score`). -/
def zeroSimOracle : SimOracle :=
  fun sections _ => .ok (sections.map (fun _ => 0))

/-- **C1, counterexample.**  On a store with no curated mappings and a
fallback that runs without error but produces zero matches (all scores
below `min_score`), the orchestrator tags the result
`keyword_matching` (the fallback-matched tag) with zero sections — not
the `no_mappings`/no-match tag the claim requires when both stages
yield zero sections. -/
theorem C1_counterexample :
    (search_codes zeroSimOracle c1DB c1Req).1 = .ok
      { csi_code := c1Csi, icc_sections := [], total_results := 0,
        source := "keyword_matching" } ∧
    "keyword_matching" ≠ "no_mappings" := by
  exact ⟨rfl, by decide⟩

/-- **C1, amended.**  For every search on an existing QueryCode, the
provenance tag is `manual_mappings` (curated) exactly when the curated
lookup returned a non-empty section list; `keyword_matching`
(fallback-matched) when the curated lookup was empty and the fallback
stage completed without error — *including* runs that clear nothing
past `min_score` and return zero sections; and `no_mappings` (no-match)
when the curated lookup was empty and the fallback stage raised. -/
theorem C1_provenance_amended (sim : SimOracle) (db : DB)
    (req : SearchRequest) (csi : CSICode) (curated : List ICCSection)
    (h : search_csi_to_icc db req.csi_code req.state req.year req.icc_document
      = some (csi, curated)) :
    (curated ≠ [] → (search_codes sim db req).1 = .ok
      { csi_code := csi, icc_sections := curated,
        total_results := curated.length, source := "manual_mappings" }) ∧
    (∀ ms, curated = [] → fallbackPipeline sim db req csi = .ok ms →
      (search_codes sim db req).1 = .ok
        { csi_code := csi, icc_sections := ms.map (fun m => m.sec),
          total_results := ms.length, source := "keyword_matching" }) ∧
    (∀ e, curated = [] → fallbackPipeline sim db req csi = .error e →
      (search_codes sim db req).1 = .ok
        { csi_code := csi, icc_sections := [], total_results := 0,
          source := "no_mappings" }) := by
  refine ⟨fun hne => ?_, fun ms hemp hok => ?_, fun e hemp herr => ?_⟩
  · rw [search_codes_curated_branch sim db req h hne]
  · subst hemp
    rw [search_codes_fallback_ok_branch sim db req h hok]
  · subst hemp
    rw [search_codes_fallback_error_branch sim db req h herr]

/-- Witness for C1's amended theorem: the zero-match fallback run is
tagged `keyword_matching`. -/
theorem C1_provenance_amended_witness :
    (search_codes zeroSimOracle c1DB c1Req).1 = .ok
      { csi_code := c1Csi, icc_sections := [], total_results := 0,
        source := "keyword_matching" } :=
  (C1_provenance_amended zeroSimOracle c1DB c1Req c1Csi [] rfl).2.1
    [] rfl rfl

/-- Store for the empty-corpus scenario: the CSI code exists but there
are no sections at all. -/
def c7DB : DB :=
  { csi_codes := [c1Csi], icc_documents := [c1Doc],
    icc_sections := [], mappings := [] }

/-- **C7.**  For every search on an existing QueryCode with an empty
curated lookup whose fallback stage fails, the orchestrator swallows
the failure and returns a well-formed `ok` result with the
`no_mappings` (no-match) tag and zero sections, leaving the store
untouched; and an empty corpus for the requested document family is
such a failure (initialize raises before vectorization). -/
theorem C7_fallback_failure_degrades (sim : SimOracle) (db : DB)
    (req : SearchRequest) (csi : CSICode)
    (h : search_csi_to_icc db req.csi_code req.state req.year req.icc_document
      = some (csi, [])) :
    (∀ e, fallbackPipeline sim db req csi = .error e →
      (search_codes sim db req).1 = .ok
        { csi_code := csi, icc_sections := [], total_results := 0,
          source := "no_mappings" } ∧ (search_codes sim db req).2 = db) ∧
    (matcherSections db req.icc_document = [] →
      ∃ e, fallbackPipeline sim db req csi = .error e) := by
  constructor
  · intro e herr
    rw [search_codes_fallback_error_branch sim db req h herr]
    exact ⟨rfl, rfl⟩
  · intro hempty
    refine ⟨"No ICC sections found in database", ?_⟩
    unfold fallbackPipeline matcherInitialize
    rw [hempty]
    rfl

/-- Witness for C7: searching the empty-corpus store returns the
degraded `no_mappings` envelope with no error. -/
theorem C7_fallback_failure_degrades_witness :
    (search_codes zeroSimOracle c7DB c1Req).1 = .ok
      { csi_code := c1Csi, icc_sections := [], total_results := 0,
        source := "no_mappings" } := by
  have hc7 := C7_fallback_failure_degrades zeroSimOracle c7DB c1Req c1Csi rfl
  obtain ⟨e, he⟩ := hc7.2 rfl
  exact (hc7.1 e he).1

/-- **C8.**  The search operation never writes mappings: for every
oracle, store and request — curated hits, fallback suggestions and
degraded runs alike — the store after `search_codes` is the store it
was given, and in particular the persisted `Mapping` rows are
unchanged. -/
theorem C8_search_is_read_only (sim : SimOracle) (db : DB)
    (req : SearchRequest) :
    (search_codes sim db req).2 = db ∧
    (search_codes sim db req).2.mappings = db.mappings := by
  have h2 : (search_codes sim db req).2 = db := by
    unfold search_codes
    split
    · rfl
    · split
      · split
        · split <;> rfl
        · rfl
      · rfl
  exact ⟨h2, by rw [h2]⟩

/-! ## Claims C6, C10 — mapping synthesizer -/

/-- At most one mapping row per (CSI, section) pair. -/
def pairUnique (maps : List Mapping) : Prop :=
  maps.Pairwise (fun a b =>
    ¬(a.csi_code_id = b.csi_code_id ∧ a.icc_section_id = b.icc_section_id))

/-- A pair already present stays present across a synthesis step. -/
theorem hasPair_synthStep_mono (csi : CSICode) (rm : List (String × String))
    (acc : Nat × List Mapping) (m : MatchResult) {c s : Nat}
    (h : hasPair acc.2 c s = true) :
    hasPair (synthStep csi rm acc m).2 c s = true := by
  unfold synthStep
  split
  · exact h
  · dsimp only
    unfold hasPair at h ⊢
    rw [List.any_append, h]
    rfl

/-- A pair already present stays present across the whole loop. -/
theorem hasPair_foldl_mono (csi : CSICode) (rm : List (String × String))
    (ms : List MatchResult) :
    ∀ (acc : Nat × List Mapping) {c s : Nat},
      hasPair acc.2 c s = true →
      hasPair ((ms.foldl (synthStep csi rm) acc)).2 c s = true := by
  induction ms with
  | nil => intro acc c s h; exact h
  | cons m ms ih =>
    intro acc c s h
    rw [List.foldl_cons]
    exact ih _ (hasPair_synthStep_mono csi rm acc m h)

/-- After the loop, every processed MatchResult's pair has a row. -/
theorem foldl_hasPair_all (csi : CSICode) (rm : List (String × String))
    (ms : List MatchResult) :
    ∀ (acc : Nat × List Mapping), ∀ m ∈ ms,
      hasPair ((ms.foldl (synthStep csi rm) acc)).2 csi.id m.sec.id = true := by
  induction ms with
  | nil => intro acc m hm; exact absurd hm (List.not_mem_nil m)
  | cons x ms ih =>
    intro acc m hm
    rw [List.foldl_cons]
    rcases List.mem_cons.mp hm with hm | hm
    · subst hm
      refine hasPair_foldl_mono csi rm ms _ ?_
      unfold synthStep
      split
      · assumption
      · dsimp only
        unfold hasPair
        rw [List.any_append]
        simp
    · exact ih _ m hm

/-- If every pair is already present, the loop is the identity: no row
is added and the counter stays put. -/
theorem foldl_of_all_present (csi : CSICode) (rm : List (String × String))
    (ms : List MatchResult) (n : Nat) (maps : List Mapping)
    (h : ∀ m ∈ ms, hasPair maps csi.id m.sec.id = true) :
    ms.foldl (synthStep csi rm) (n, maps) = (n, maps) := by
  induction ms with
  | nil => rfl
  | cons m ms ih =>
    rw [List.foldl_cons]
    have hstep : synthStep csi rm (n, maps) m = (n, maps) := by
      unfold synthStep
      rw [if_pos (h m (List.mem_cons_self m ms))]
    rw [hstep]
    exact ih (fun x hx => h x (List.mem_cons_of_mem m hx))

/-- The loop never decreases the created counter. -/
theorem foldl_count_mono (csi : CSICode) (rm : List (String × String))
    (ms : List MatchResult) :
    ∀ (acc : Nat × List Mapping), acc.1 ≤ (ms.foldl (synthStep csi rm) acc).1 := by
  induction ms with
  | nil => intro acc; exact le_refl _
  | cons m ms ih =>
    intro acc
    rw [List.foldl_cons]
    refine le_trans ?_ (ih (synthStep csi rm acc m))
    unfold synthStep
    split
    · exact le_refl _
    · exact Nat.le_succ _

/-- If the loop created nothing, the mapping list is untouched. -/
theorem foldl_count_eq_imp_maps_eq (csi : CSICode) (rm : List (String × String))
    (ms : List MatchResult) :
    ∀ (n : Nat) (maps : List Mapping),
      (ms.foldl (synthStep csi rm) (n, maps)).1 = n →
      (ms.foldl (synthStep csi rm) (n, maps)).2 = maps := by
  induction ms with
  | nil => intro n maps _; rfl
  | cons m ms ih =>
    intro n maps h
    rw [List.foldl_cons] at h ⊢
    by_cases hp : hasPair maps csi.id m.sec.id = true
    · have hstep : synthStep csi rm (n, maps) m = (n, maps) := by
        unfold synthStep
        rw [if_pos hp]
      rw [hstep] at h ⊢
      exact ih n maps h
    · exfalso
      have hstep : (synthStep csi rm (n, maps) m).1 = n + 1 := by
        unfold synthStep
        rw [if_neg hp]
      have hge := foldl_count_mono csi rm ms (synthStep csi rm (n, maps) m)
      rw [hstep] at hge
      omega

/-- The loop only appends rows; stored rows are never modified. -/
theorem foldl_maps_append (csi : CSICode) (rm : List (String × String))
    (ms : List MatchResult) :
    ∀ (acc : Nat × List Mapping), ∃ newRows,
      (ms.foldl (synthStep csi rm) acc).2 = acc.2 ++ newRows := by
  induction ms with
  | nil => intro acc; exact ⟨[], by simp⟩
  | cons m ms ih =>
    intro acc
    obtain ⟨tail, htail⟩ := ih (synthStep csi rm acc m)
    rw [List.foldl_cons, htail]
    unfold synthStep
    split
    · exact ⟨tail, rfl⟩
    · dsimp only
      exact ⟨_, List.append_assoc _ _ tail⟩

/-- One synthesis step preserves pair uniqueness: a row is only added
when no row with its pair exists. -/
theorem pairUnique_synthStep (csi : CSICode) (rm : List (String × String))
    (acc : Nat × List Mapping) (m : MatchResult) (h : pairUnique acc.2) :
    pairUnique (synthStep csi rm acc m).2 := by
  unfold synthStep
  split
  · exact h
  · rename_i hp
    dsimp only
    unfold pairUnique at h ⊢
    rw [List.pairwise_append]
    refine ⟨h, List.pairwise_singleton _ _, ?_⟩
    intro a ha b hb
    rw [List.mem_singleton] at hb
    subst hb
    rintro ⟨h1, h2⟩
    apply hp
    unfold hasPair
    rw [List.any_eq_true]
    refine ⟨a, ha, ?_⟩
    simp only [h1, h2]
    simp

/-- The whole loop preserves pair uniqueness. -/
theorem pairUnique_foldl (csi : CSICode) (rm : List (String × String))
    (ms : List MatchResult) :
    ∀ (acc : Nat × List Mapping), pairUnique acc.2 →
      pairUnique ((ms.foldl (synthStep csi rm) acc)).2 := by
  induction ms with
  | nil => intro acc h; exact h
  | cons m ms ih =>
    intro acc h
    rw [List.foldl_cons]
    exact ih _ (pairUnique_synthStep csi rm acc m h)

/-- **C6.**  The Mapping Synthesizer creates and deduplicates: after a
call, every MatchResult's (QueryCode, CodeSection) pair has a mapping
row, and every pair that had no existing Mapping before the call got a
genuinely new row (creation); the call only appends rows (existing
rows are skipped, never updated); pair uniqueness — at most one
Mapping per (QueryCode, CodeSection) pair — is preserved; and it is
idempotent: a second call with the same QueryCode and identical
MatchResults creates zero new rows, commits nothing, and leaves the
store exactly as the first call left it. -/
theorem C6_synthesizer_idempotent (db : DB) (csi : CSICode)
    (ms : List MatchResult) (rm : List (String × String)) :
    ((create_keyword_mappings
        ((create_keyword_mappings db csi ms rm).2.1) csi ms rm).1 = 0 ∧
     (create_keyword_mappings
        ((create_keyword_mappings db csi ms rm).2.1) csi ms rm).2.1 =
       (create_keyword_mappings db csi ms rm).2.1 ∧
     (create_keyword_mappings
        ((create_keyword_mappings db csi ms rm).2.1) csi ms rm).2.2 = false) ∧
    (∃ newRows, (create_keyword_mappings db csi ms rm).2.1.mappings =
      db.mappings ++ newRows) ∧
    (pairUnique db.mappings →
      pairUnique (create_keyword_mappings db csi ms rm).2.1.mappings) ∧
    (∀ m ∈ ms, hasPair (create_keyword_mappings db csi ms rm).2.1.mappings
      csi.id m.sec.id = true) ∧
    (∀ m ∈ ms, hasPair db.mappings csi.id m.sec.id = false →
      ∃ row ∈ (create_keyword_mappings db csi ms rm).2.1.mappings,
        row ∉ db.mappings ∧ row.csi_code_id = csi.id ∧
        row.icc_section_id = m.sec.id) := by
  have hall : ∀ m ∈ ms,
      hasPair ((ms.foldl (synthStep csi rm) (0, db.mappings))).2
        csi.id m.sec.id = true :=
    foldl_hasPair_all csi rm ms (0, db.mappings)
  have hsecond :
      ms.foldl (synthStep csi rm)
        (0, (ms.foldl (synthStep csi rm) (0, db.mappings)).2) =
      (0, (ms.foldl (synthStep csi rm) (0, db.mappings)).2) :=
    foldl_of_all_present csi rm ms 0 _ hall
  refine ⟨?_, ?_, ?_, ?_, ?_⟩
  · unfold create_keyword_mappings
    dsimp only
    rw [hsecond]
    exact ⟨rfl, rfl, rfl⟩
  · unfold create_keyword_mappings
    dsimp only
    exact foldl_maps_append csi rm ms (0, db.mappings)
  · intro hu
    unfold create_keyword_mappings
    dsimp only
    exact pairUnique_foldl csi rm ms (0, db.mappings) hu
  · intro m hm
    unfold create_keyword_mappings
    dsimp only
    exact hall m hm
  · intro m hm hfresh
    have h4 := hall m hm
    unfold create_keyword_mappings
    dsimp only
    unfold hasPair at h4
    rw [List.any_eq_true] at h4
    obtain ⟨row, hrow, hbeq⟩ := h4
    simp only [Bool.and_eq_true, beq_iff_eq] at hbeq
    refine ⟨row, hrow, ?_, hbeq.1, hbeq.2⟩
    intro hmem
    have hdb : hasPair db.mappings csi.id m.sec.id = true := by
      unfold hasPair
      rw [List.any_eq_true]
      exact ⟨row, hmem, by simp [hbeq.1, hbeq.2]⟩
    rw [hdb] at hfresh
    exact Bool.noConfusion hfresh

/-- A concrete match for the synthesizer witness. -/
def c6Match : MatchResult :=
  { sec := c3SecA, score := mkRat 1 2, matched_keywords := ["water"],
    confidence := "high" }

/-- Witness for C6: on a store with no mappings, the first call
creates a row for the fresh pair (the match's pair has a mapping
afterwards, and a new row exists for it), the second identical call
creates 0 rows, and pair uniqueness holds afterwards. -/
theorem C6_synthesizer_idempotent_witness :
    (create_keyword_mappings
        ((create_keyword_mappings c1DB c1Csi [c6Match]
          default_relevance_map).2.1) c1Csi [c6Match]
        default_relevance_map).1 = 0 ∧
    pairUnique (create_keyword_mappings c1DB c1Csi [c6Match]
        default_relevance_map).2.1.mappings ∧
    hasPair (create_keyword_mappings c1DB c1Csi [c6Match]
        default_relevance_map).2.1.mappings c1Csi.id c6Match.sec.id = true ∧
    (∃ row ∈ (create_keyword_mappings c1DB c1Csi [c6Match]
        default_relevance_map).2.1.mappings,
      row ∉ c1DB.mappings ∧ row.csi_code_id = c1Csi.id ∧
      row.icc_section_id = c6Match.sec.id) :=
  ⟨(C6_synthesizer_idempotent c1DB c1Csi [c6Match]
      default_relevance_map).1.1,
   (C6_synthesizer_idempotent c1DB c1Csi [c6Match]
      default_relevance_map).2.2.1 List.Pairwise.nil,
   (C6_synthesizer_idempotent c1DB c1Csi [c6Match]
      default_relevance_map).2.2.2.1 c6Match (List.mem_cons_self c6Match []),
   (C6_synthesizer_idempotent c1DB c1Csi [c6Match]
      default_relevance_map).2.2.2.2 c6Match (List.mem_cons_self c6Match [])
     (by decide)⟩

/-- **C10.**  If the synthesizer creates zero mappings — the match list
is empty or every pair already exists — it returns 0, the store is left
exactly as it was, and no commit is performed. -/
theorem C10_zero_created_no_write (db : DB) (csi : CSICode)
    (ms : List MatchResult) (rm : List (String × String))
    (h : (create_keyword_mappings db csi ms rm).1 = 0) :
    (create_keyword_mappings db csi ms rm).2.1 = db ∧
    (create_keyword_mappings db csi ms rm).2.2 = false := by
  unfold create_keyword_mappings at h ⊢
  dsimp only at h ⊢
  have hmaps := foldl_count_eq_imp_maps_eq csi rm ms 0 db.mappings h
  constructor
  · rw [hmaps]
  · rw [h]
    rfl

/-- Witness for C10: the empty match list creates nothing, writes
nothing and commits nothing. -/
theorem C10_zero_created_no_write_witness :
    (create_keyword_mappings c1DB c1Csi [] default_relevance_map).2.1 = c1DB ∧
    (create_keyword_mappings c1DB c1Csi [] default_relevance_map).2.2 = false :=
  C10_zero_created_no_write c1DB c1Csi [] default_relevance_map rfl

end CsiToIcc
